import Mathlib

/-!
Verification of `scripts/create_sqs_queue.py`, a one-shot CLI that creates an
SQS queue (optionally together with a dead-letter queue), attaches a redrive
policy, and writes the resulting identifiers as indented JSON to a file or to
standard output.

The remote SQS control plane is modelled as an oracle (`SqsEnv`); each remote
call, file operation and stdout print is recorded as an `Event` so that order,
counts and contents of the side effects can be stated.  Python integers are
`Int`, Python strings are `String`, the `or`-fallback and `if dlq_arn:` tests
mirror Python truthiness on `Optional[str]` values.
-/

namespace CreateSqsQueue

/-- Parsed command-line arguments of the script (argparse result).
`region` is passed to the session constructor only and does not affect the
modelled behaviour; it is kept for fidelity. -/
structure Args where
  name : String
  region : Option String := none
  withDlq : Bool := false
  dlqName : Option String := none
  maxReceiveCount : Int := 5
  visibilityTimeoutSeconds : Int := 180
  messageRetentionSeconds : Int := 345600
  out : String := "-"
deriving Repr, DecidableEq

/-- The argparse defaults of the script: `--max-receive-count 5`,
`--visibility-timeout-seconds 180`, `--message-retention-seconds 345600`,
`--out -`, no region, no DLQ, no DLQ name. -/
def defaultArgs (name : String) : Args := { name := name }

/-- Oracle for the environment: the SQS control plane
(`create_queue` returning the `QueueUrl` field of its response,
`get_queue_attributes` returning the `Attributes` map of its response),
and the local filesystem (whether `open` and `write` succeed for a path).
An `Except.error` models the call raising an exception. -/
structure SqsEnv where
  createQueue : String → List (String × String) → Except String String
  getQueueAttributes : String → List String → Except String (List (String × String))
  openOk : String → Bool
  writeOk : String → Bool

/-- One observable side effect of a run, in program order. -/
inductive Event where
  | createQueue (name : String) (attrs : List (String × String))
  | getQueueAttributes (url : String) (names : List String)
  | openFile (path : String)
  | writeFile (path : String) (content : String)
  | printStdout (content : String)
  | closeFile (path : String)
deriving Repr, DecidableEq

/-- Python truthiness of an `Optional[str]`: `None` and `""` are falsy. -/
def truthy : Option String → Bool
  | none => false
  | some s => s ≠ ""

/-- The DLQ name: `args.dlq_name or f"{args.name}-dlq"` — the fallback fires
on `None` and on the empty string (Python `or` on a falsy value). -/
def dlqNameOf (args : Args) : String :=
  match args.dlqName with
  | some s => if s = "" then args.name ++ "-dlq" else s
  | none => args.name ++ "-dlq"

/-- The two attributes shared by both create calls:
`str()` of the configured visibility timeout and retention. -/
def baseAttrs (args : Args) : List (String × String) :=
  [("VisibilityTimeout", toString args.visibilityTimeoutSeconds),
   ("MessageRetentionPeriod", toString args.messageRetentionSeconds)]

/-- One hexadecimal digit, lowercase, as emitted by `json.dumps` escapes. -/
def hexDig (n : Nat) : Char :=
  if n < 10 then Char.ofNat (48 + n) else Char.ofNat (87 + n)

/-- Four lowercase hex digits of `n` (for a `\uXXXX` escape). -/
def hex4 (n : Nat) : String :=
  ⟨[hexDig (n / 4096 % 16), hexDig (n / 256 % 16), hexDig (n / 16 % 16), hexDig (n % 16)]⟩

/-- The `\uXXXX` escape of a code point, with a surrogate pair for code
points above the basic multilingual plane, as `json.dumps` emits with its
default `ensure_ascii=True`. -/
def uEscape (n : Nat) : String :=
  if n < 65536 then "\\u" ++ hex4 n
  else "\\u" ++ hex4 (55296 + (n - 65536) / 1024) ++ "\\u" ++ hex4 (56320 + (n - 65536) % 1024)

/-- Escape of one character inside a JSON string literal, following
`json.dumps` with `ensure_ascii=True`: a character is kept literally iff it is
in the printable ASCII range `0x20..0x7e` and is neither `"` nor backslash;
the named controls use their short escapes, everything else `\uXXXX`. -/
def escapeChar (c : Char) : String :=
  if c = Char.ofNat 34 then "\\\""
  else if c = Char.ofNat 92 then "\\\\"
  else if 32 ≤ c.toNat ∧ c.toNat ≤ 126 then String.singleton c
  else if c = Char.ofNat 8 then "\\b"
  else if c = Char.ofNat 9 then "\\t"
  else if c = Char.ofNat 10 then "\\n"
  else if c = Char.ofNat 12 then "\\f"
  else if c = Char.ofNat 13 then "\\r"
  else uEscape c.toNat

/-- Escape of a character list (body of a JSON string literal). -/
def escapeList : List Char → List Char
  | [] => []
  | c :: cs => (escapeChar c).data ++ escapeList cs

/-- The escaped body of the JSON encoding of a string. -/
def jsonEscape (s : String) : String := ⟨escapeList s.data⟩

/-- The JSON encoding of a string, quotes included. -/
def jsonStr (s : String) : String := "\"" ++ jsonEscape s ++ "\""

/-- The `RedrivePolicy` value:
`json.dumps({"deadLetterTargetArn": dlq_arn, "maxReceiveCount": n}, separators=(",", ":"))`
— compact separators, insertion order of the two keys. -/
def redrivePolicyStr (dlqArn : String) (maxReceiveCount : Int) : String :=
  "\x7b" ++ jsonStr "deadLetterTargetArn" ++ ":" ++ jsonStr dlqArn ++ ","
    ++ jsonStr "maxReceiveCount" ++ ":" ++ toString maxReceiveCount ++ "\x7d"

/-- The main queue's attribute dict: the two base attributes, and — only when
`dlq_arn` is truthy — the `RedrivePolicy` entry appended. -/
def mainAttrs (args : Args) (dlqArn : Option String) : List (String × String) :=
  baseAttrs args ++
    (if truthy dlqArn then
      [("RedrivePolicy", redrivePolicyStr (dlqArn.getD "") args.maxReceiveCount)]
    else [])

/-- The output payload dict, in insertion order: the main queue's URL and ARN
always, the DLQ URL when `dlq_url` is truthy, the DLQ ARN when `dlq_arn` is
truthy. -/
def payloadOf (queueUrl queueArn : String) (dlqUrl dlqArn : Option String) :
    List (String × String) :=
  [("existing_queue_url", queueUrl), ("existing_queue_arn", queueArn)] ++
    (if truthy dlqUrl then [("existing_dlq_url", dlqUrl.getD "")] else []) ++
    (if truthy dlqArn then [("existing_dlq_arn", dlqArn.getD "")] else [])

/-- Rendering of `json.dumps(d, indent=2)` for a flat dict with string values:
`\x7b\n  "k": "v",\n  ...\n\x7d`, and `\x7b\x7d` for the empty dict. -/
def dumpsIndent2 (kvs : List (String × String)) : String :=
  match kvs with
  | [] => "\x7b\x7d"
  | _ =>
    "\x7b\n" ++
      String.intercalate ",\n"
        (kvs.map (fun kv => "  " ++ jsonStr kv.1 ++ ": " ++ jsonStr kv.2)) ++
      "\n\x7d"

/-- Embedding of `_queue_arn`: fetch the queue's attributes asking for
`QueueArn` and extract that key; a missing key is a raised `KeyError`,
modelled as an error. -/
def queueArnOf (env : SqsEnv) (url : String) : Except String String :=
  match env.getQueueAttributes url ["QueueArn"] with
  | .error e => .error e
  | .ok attrs =>
    match attrs.lookup "QueueArn" with
    | some a => .ok a
    | none => .error "KeyError: QueueArn"

/-- The output phase (the `try`/`finally` block of `main`): print to stdout
when `--out` is `-`; otherwise open the file, write the document plus one
newline, and close the handle in the `finally` even when the write raises.
A failed `open` acquires no handle, so nothing is closed. -/
def writePhase (env : SqsEnv) (args : Args) (payload : List (String × String))
    (evs : List Event) : Except String Nat × List Event :=
  let doc := dumpsIndent2 payload
  if args.out = "-" then
    (.ok 0, evs ++ [Event.printStdout doc])
  else if env.openOk args.out then
    if env.writeOk args.out then
      (.ok 0, evs ++ [Event.openFile args.out,
                      Event.writeFile args.out (doc ++ "\n"),
                      Event.closeFile args.out])
    else
      (.error "write failed", evs ++ [Event.openFile args.out, Event.closeFile args.out])
  else
    (.error "open failed", evs)

/-- Lines 42–75 of `main`: build the main queue's attributes, create the main
queue, fetch its ARN, assemble the payload and write it out. -/
def finishMain (env : SqsEnv) (args : Args) (dlqUrl dlqArn : Option String)
    (evs : List Event) : Except String Nat × List Event :=
  let attrs := mainAttrs args dlqArn
  let evs1 := evs ++ [Event.createQueue args.name attrs]
  match env.createQueue args.name attrs with
  | .error e => (.error e, evs1)
  | .ok queueUrl =>
    let evs2 := evs1 ++ [Event.getQueueAttributes queueUrl ["QueueArn"]]
    match queueArnOf env queueUrl with
    | .error e => (.error e, evs2)
    | .ok queueArn =>
      writePhase env args (payloadOf queueUrl queueArn dlqUrl dlqArn) evs2

/-- Embedding of `main` minus argument parsing: given the parsed arguments and
the environment oracle, the exit code (`Except.error` is an uncaught exception,
hence a non-zero process exit) together with the ordered trace of side
effects. -/
def run (env : SqsEnv) (args : Args) : Except String Nat × List Event :=
  if args.withDlq then
    let dn := dlqNameOf args
    let evs1 := [Event.createQueue dn (baseAttrs args)]
    match env.createQueue dn (baseAttrs args) with
    | .error e => (.error e, evs1)
    | .ok dlqUrl =>
      let evs2 := evs1 ++ [Event.getQueueAttributes dlqUrl ["QueueArn"]]
      match queueArnOf env dlqUrl with
      | .error e => (.error e, evs2)
      | .ok dlqArn => finishMain env args (some dlqUrl) (some dlqArn) evs2
  else
    finishMain env args none none []

/-- The events a successful output phase appends: one stdout print for `-`,
an open/write/close triple for a file path. -/
def writeEvents (args : Args) (doc : String) : List Event :=
  if args.out = "-" then [Event.printStdout doc]
  else [Event.openFile args.out, Event.writeFile args.out (doc ++ "\n"),
        Event.closeFile args.out]

/-- Whether an event is a remote create-queue call. -/
def Event.isCreate : Event → Bool
  | .createQueue _ _ => true
  | _ => false

/-- Whether an event writes the output document (to a file or to stdout). -/
def Event.isOutput : Event → Bool
  | .writeFile _ _ => true
  | .printStdout _ => true
  | _ => false

/-- Whether an event acquires the output file handle. -/
def Event.isOpen : Event → Bool
  | .openFile _ => true
  | _ => false

/-- Whether an event releases the output file handle. -/
def Event.isClose : Event → Bool
  | .closeFile _ => true
  | _ => false

/-- Number of consecutive newline characters at the end of a string. -/
def trailingNewlines (s : String) : Nat :=
  (s.data.reverse.takeWhile (fun c => c = Char.ofNat 10)).length

/-- An environment whose remote calls, when they succeed, return nonempty
identifiers (every real queue URL and ARN is nonempty). -/
def ReturnsNonempty (env : SqsEnv) : Prop :=
  (∀ n a u, env.createQueue n a = .ok u → u ≠ "") ∧
  (∀ u, ∀ a : String, queueArnOf env u = .ok a → a ≠ "")

/-- A string of printable ASCII characters containing neither `"` nor
backslash: `json.dumps` embeds such a string into a JSON document verbatim.
Real AWS queue ARNs are of this shape. -/
def PlainAscii (s : String) : Prop :=
  ∀ c ∈ s.data, 32 ≤ c.toNat ∧ c.toNat ≤ 126 ∧ c ≠ Char.ofNat 34 ∧ c ≠ Char.ofNat 92

/-- A fully cooperative environment for concrete test runs: every create call
returns the same queue URL, every attribute lookup the same ARN, and the
filesystem accepts every open and write. -/
def envAllOk : SqsEnv where
  createQueue := fun _ _ => .ok "https://queue.example/q"
  getQueueAttributes := fun _ _ => .ok [("QueueArn", "arn:aws:sqs:us-east-1:123456789012:q")]
  openOk := fun _ => true
  writeOk := fun _ => true

/-- An environment in which creating the queue named `orders` fails while
everything else (in particular creating `orders-dlq`) succeeds. -/
def envMainFails : SqsEnv where
  createQueue := fun n _ => if n = "orders" then .error "QueueAlreadyExists" else .ok "https://queue.example/dlq"
  getQueueAttributes := fun _ _ => .ok [("QueueArn", "arn:aws:sqs:us-east-1:123456789012:q")]
  openOk := fun _ => true
  writeOk := fun _ => true

/-- Arguments of the scenario `--name orders --with-dlq --max-receive-count 3`. -/
def argsOrdersDlq : Args :=
  { name := "orders", withDlq := true, maxReceiveCount := 3 }

/-- Arguments of the scenario `--name orders` (all defaults). -/
def argsOrders : Args := defaultArgs "orders"

/-- Arguments of the scenario `--name orders --out out.json`. -/
def argsOrdersFile : Args := { name := "orders", out := "out.json" }

/-- Arguments with `--with-dlq` and `--dlq-name` supplied as the empty
string. -/
def argsEmptyDlqName : Args :=
  { name := "orders", withDlq := true, dlqName := some "" }

/-! ### Phase characterization lemmas -/

theorem writePhase_spec (env : SqsEnv) (args : Args) (p : List (String × String))
    (evs : List Event) :
    (args.out = "-" ∧
      writePhase env args p evs = (.ok 0, evs ++ [Event.printStdout (dumpsIndent2 p)])) ∨
    (args.out ≠ "-" ∧ env.openOk args.out = true ∧ env.writeOk args.out = true ∧
      writePhase env args p evs =
        (.ok 0, evs ++ [Event.openFile args.out,
                        Event.writeFile args.out (dumpsIndent2 p ++ "\n"),
                        Event.closeFile args.out])) ∨
    (args.out ≠ "-" ∧ env.openOk args.out = true ∧ env.writeOk args.out = false ∧
      writePhase env args p evs =
        (.error "write failed", evs ++ [Event.openFile args.out, Event.closeFile args.out])) ∨
    (args.out ≠ "-" ∧ env.openOk args.out = false ∧
      writePhase env args p evs = (.error "open failed", evs)) := by
  unfold writePhase
  split_ifs with h1 h2 h3
  · exact Or.inl ⟨h1, rfl⟩
  · exact Or.inr (Or.inl ⟨h1, h2, h3, rfl⟩)
  · exact Or.inr (Or.inr (Or.inl ⟨h1, h2, by simpa using h3, rfl⟩))
  · exact Or.inr (Or.inr (Or.inr ⟨h1, by simpa using h2, rfl⟩))

theorem finishMain_spec (env : SqsEnv) (args : Args) (du da : Option String)
    (evs : List Event) :
    (∃ e, env.createQueue args.name (mainAttrs args da) = .error e ∧
      finishMain env args du da evs =
        (.error e, evs ++ [Event.createQueue args.name (mainAttrs args da)])) ∨
    (∃ qu e, env.createQueue args.name (mainAttrs args da) = .ok qu ∧
      queueArnOf env qu = .error e ∧
      finishMain env args du da evs =
        (.error e, evs ++ [Event.createQueue args.name (mainAttrs args da),
                           Event.getQueueAttributes qu ["QueueArn"]])) ∨
    (∃ qu qa, env.createQueue args.name (mainAttrs args da) = .ok qu ∧
      queueArnOf env qu = .ok qa ∧
      finishMain env args du da evs =
        writePhase env args (payloadOf qu qa du da)
          (evs ++ [Event.createQueue args.name (mainAttrs args da),
                   Event.getQueueAttributes qu ["QueueArn"]])) := by
  cases hq : env.createQueue args.name (mainAttrs args da) with
  | error e => exact Or.inl ⟨e, rfl, by simp [finishMain, hq]⟩
  | ok qu =>
    cases ha : queueArnOf env qu with
    | error e => exact Or.inr (Or.inl ⟨qu, e, rfl, ha, by simp [finishMain, hq, ha]⟩)
    | ok qa => exact Or.inr (Or.inr ⟨qu, qa, rfl, ha, by simp [finishMain, hq, ha]⟩)

theorem run_spec (env : SqsEnv) (args : Args) :
    (args.withDlq = true ∧
      ((∃ e, env.createQueue (dlqNameOf args) (baseAttrs args) = .error e ∧
          run env args = (.error e, [Event.createQueue (dlqNameOf args) (baseAttrs args)])) ∨
       (∃ du e, env.createQueue (dlqNameOf args) (baseAttrs args) = .ok du ∧
          queueArnOf env du = .error e ∧
          run env args = (.error e, [Event.createQueue (dlqNameOf args) (baseAttrs args),
                                     Event.getQueueAttributes du ["QueueArn"]])) ∨
       (∃ du da, env.createQueue (dlqNameOf args) (baseAttrs args) = .ok du ∧
          queueArnOf env du = .ok da ∧
          run env args = finishMain env args (some du) (some da)
            [Event.createQueue (dlqNameOf args) (baseAttrs args),
             Event.getQueueAttributes du ["QueueArn"]]))) ∨
    (args.withDlq = false ∧ run env args = finishMain env args none none []) := by
  cases hdlq : args.withDlq with
  | false => exact Or.inr ⟨rfl, by unfold run; simp [hdlq]⟩
  | true =>
    refine Or.inl ⟨rfl, ?_⟩
    cases hq : env.createQueue (dlqNameOf args) (baseAttrs args) with
    | error e => exact Or.inl ⟨e, rfl, by simp [run, hdlq, hq]⟩
    | ok du =>
      cases ha : queueArnOf env du with
      | error e => exact Or.inr (Or.inl ⟨du, e, rfl, ha, by simp [run, hdlq, hq, ha]⟩)
      | ok da => exact Or.inr (Or.inr ⟨du, da, rfl, ha, by simp [run, hdlq, hq, ha]⟩)

theorem writePhase_ok (env : SqsEnv) (args : Args) (p : List (String × String))
    (evs : List Event) (n : Nat) (h : (writePhase env args p evs).fst = .ok n) :
    writePhase env args p evs = (.ok 0, evs ++ writeEvents args (dumpsIndent2 p)) := by
  rcases writePhase_spec env args p evs with
    ⟨h1, heq⟩ | ⟨h1, h2, h3, heq⟩ | ⟨h1, h2, h3, heq⟩ | ⟨h1, h2, heq⟩ <;>
      rw [heq] at h ⊢ <;> simp_all [writeEvents]

theorem finishMain_ok (env : SqsEnv) (args : Args) (du da : Option String)
    (evs : List Event) (n : Nat) (h : (finishMain env args du da evs).fst = .ok n) :
    ∃ qu qa, env.createQueue args.name (mainAttrs args da) = .ok qu ∧
      queueArnOf env qu = .ok qa ∧
      finishMain env args du da evs =
        (.ok 0, evs ++ [Event.createQueue args.name (mainAttrs args da),
                        Event.getQueueAttributes qu ["QueueArn"]] ++
          writeEvents args (dumpsIndent2 (payloadOf qu qa du da))) := by
  rcases finishMain_spec env args du da evs with
    ⟨e, hq, heq⟩ | ⟨qu, e, hq, ha, heq⟩ | ⟨qu, qa, hq, ha, heq⟩
  · rw [heq] at h; simp at h
  · rw [heq] at h; simp at h
  · refine ⟨qu, qa, hq, ha, ?_⟩
    rw [heq] at h ⊢
    rw [writePhase_ok env args _ _ n h]

theorem run_ok (env : SqsEnv) (args : Args) (n : Nat)
    (h : (run env args).fst = .ok n) :
    ∃ (dlqUrl dlqArn : Option String) (qu qa : String),
      ((args.withDlq = true ∧ ∃ du da, dlqUrl = some du ∧ dlqArn = some da ∧
          env.createQueue (dlqNameOf args) (baseAttrs args) = .ok du ∧
          queueArnOf env du = .ok da) ∨
       (args.withDlq = false ∧ dlqUrl = none ∧ dlqArn = none)) ∧
      env.createQueue args.name (mainAttrs args dlqArn) = .ok qu ∧
      queueArnOf env qu = .ok qa ∧
      run env args =
        (.ok 0,
          (if args.withDlq then
            [Event.createQueue (dlqNameOf args) (baseAttrs args),
             Event.getQueueAttributes (dlqUrl.getD "") ["QueueArn"]]
           else []) ++
          [Event.createQueue args.name (mainAttrs args dlqArn),
           Event.getQueueAttributes qu ["QueueArn"]] ++
          writeEvents args (dumpsIndent2 (payloadOf qu qa dlqUrl dlqArn))) := by
  rcases run_spec env args with
    ⟨hdlq, ⟨e, hq, heq⟩ | ⟨du, e, hq, ha, heq⟩ | ⟨du, da, hq, ha, heq⟩⟩ | ⟨hdlq, heq⟩
  · rw [heq] at h; simp at h
  · rw [heq] at h; simp at h
  · rw [heq] at h
    obtain ⟨qu, qa, hq2, ha2, heq2⟩ := finishMain_ok env args (some du) (some da) _ n h
    refine ⟨some du, some da, qu, qa, Or.inl ⟨hdlq, du, da, rfl, rfl, hq, ha⟩, hq2, ha2, ?_⟩
    rw [heq, heq2]
    simp [hdlq]
  · rw [heq] at h
    obtain ⟨qu, qa, hq2, ha2, heq2⟩ := finishMain_ok env args none none _ n h
    refine ⟨none, none, qu, qa, Or.inr ⟨hdlq, rfl, rfl⟩, hq2, ha2, ?_⟩
    rw [heq, heq2]
    simp [hdlq]

/-! ### Shape of the trace on arbitrary outcomes -/

theorem writePhase_ext (env : SqsEnv) (args : Args) (p : List (String × String))
    (evs : List Event) :
    ∃ extra, (writePhase env args p evs).snd = evs ++ extra ∧
      (∀ n a, Event.createQueue n a ∈ extra → False) ∧
      extra.countP (fun ev => ev.isOpen) = extra.countP (fun ev => ev.isClose) ∧
      (∀ e, (writePhase env args p evs).fst = .error e →
        ∀ ev ∈ extra, ev.isOutput = false) ∧
      (args.out = "-" → ∀ ev ∈ extra, ev.isOpen = false) := by
  rcases writePhase_spec env args p evs with
    ⟨h1, heq⟩ | ⟨h1, h2, h3, heq⟩ | ⟨h1, h2, h3, heq⟩ | ⟨h1, h2, heq⟩ <;> rw [heq]
  · exact ⟨_, rfl, by simp [Event.isCreate], by simp [Event.isOpen, Event.isClose],
      by simp, by simp [Event.isOpen]⟩
  · refine ⟨_, rfl, by simp [Event.isCreate], by simp [Event.isOpen, Event.isClose], ?_, ?_⟩
    · intro e he; simp at he
    · intro hc; exact absurd hc h1
  · refine ⟨_, rfl, by simp [Event.isCreate], by simp [Event.isOpen, Event.isClose], ?_, ?_⟩
    · intro e _ ev hev
      rcases List.mem_cons.mp hev with h | h
      · rw [h]; rfl
      · simp at h; rw [h]; rfl
    · intro hc; exact absurd hc h1
  · exact ⟨[], by simp, by simp, by simp, by simp, by simp⟩

theorem finishMain_ext (env : SqsEnv) (args : Args) (du da : Option String)
    (evs : List Event) :
    ∃ rest, (finishMain env args du da evs).snd
        = evs ++ Event.createQueue args.name (mainAttrs args da) :: rest ∧
      (∀ n a, Event.createQueue n a ∈ rest → False) ∧
      rest.countP (fun ev => ev.isOpen) = rest.countP (fun ev => ev.isClose) ∧
      (∀ e, (finishMain env args du da evs).fst = .error e →
        ∀ ev ∈ rest, ev.isOutput = false) ∧
      (args.out = "-" → ∀ ev ∈ rest, ev.isOpen = false) := by
  rcases finishMain_spec env args du da evs with
    ⟨e, hq, heq⟩ | ⟨qu, e, hq, ha, heq⟩ | ⟨qu, qa, hq, ha, heq⟩ <;> rw [heq]
  · exact ⟨[], by simp, by simp, by simp, by simp, by simp⟩
  · exact ⟨[Event.getQueueAttributes qu ["QueueArn"]], by simp, by simp [Event.isCreate],
      by simp [Event.isOpen, Event.isClose], by simp [Event.isOutput], by simp [Event.isOpen]⟩
  · obtain ⟨extra, hsnd, hcr, hcount, hout, hopen⟩ :=
      writePhase_ext env args (payloadOf qu qa du da)
        (evs ++ [Event.createQueue args.name (mainAttrs args da),
                 Event.getQueueAttributes qu ["QueueArn"]])
    refine ⟨Event.getQueueAttributes qu ["QueueArn"] :: extra, ?_, ?_, ?_, ?_, ?_⟩
    · rw [hsnd]; simp
    · intro n a hmem
      rcases List.mem_cons.mp hmem with h | h
      · exact absurd h (by simp)
      · exact hcr n a h
    · simp only [List.countP_cons]
      rw [hcount]; rfl
    · intro e he ev hev
      rcases List.mem_cons.mp hev with h | h
      · rw [h]; rfl
      · exact hout e he ev h
    · intro hc ev hev
      rcases List.mem_cons.mp hev with h | h
      · rw [h]; rfl
      · exact hopen hc ev h

theorem run_head (env : SqsEnv) (args : Args) (hdlq : args.withDlq = true) :
    (run env args).snd.head?
      = some (Event.createQueue (dlqNameOf args) (baseAttrs args)) := by
  rcases run_spec env args with
    ⟨_, ⟨e, hq, heq⟩ | ⟨du, e, hq, ha, heq⟩ | ⟨du, da, hq, ha, heq⟩⟩ | ⟨hf, _⟩
  · rw [heq]; rfl
  · rw [heq]; rfl
  · rw [heq]
    obtain ⟨rest, hsnd, _⟩ := finishMain_ext env args (some du) (some da) _
    rw [hsnd]
    rfl
  · rw [hdlq] at hf; cases hf

/-! ### Lookups in the attribute dictionaries -/

theorem baseAttrs_lookup (args : Args) :
    (baseAttrs args).lookup "VisibilityTimeout"
        = some (toString args.visibilityTimeoutSeconds) ∧
      (baseAttrs args).lookup "MessageRetentionPeriod"
        = some (toString args.messageRetentionSeconds) := by
  constructor <;> simp [baseAttrs, List.lookup]

theorem mainAttrs_lookup (args : Args) (da : Option String) :
    (mainAttrs args da).lookup "VisibilityTimeout"
        = some (toString args.visibilityTimeoutSeconds) ∧
      (mainAttrs args da).lookup "MessageRetentionPeriod"
        = some (toString args.messageRetentionSeconds) := by
  constructor <;> simp [mainAttrs, baseAttrs, List.lookup]

theorem mainAttrs_redrive_none (args : Args) :
    (mainAttrs args none).lookup "RedrivePolicy" = none := by
  simp [mainAttrs, baseAttrs, truthy, List.lookup]

theorem mainAttrs_redrive_some (args : Args) (da : String) (hda : da ≠ "") :
    (mainAttrs args (some da)).lookup "RedrivePolicy"
      = some (redrivePolicyStr da args.maxReceiveCount) := by
  simp [mainAttrs, baseAttrs, truthy, hda, List.lookup]

theorem writeEvents_no_create (args : Args) (doc : String) :
    ∀ ev ∈ writeEvents args doc, ev.isCreate = false := by
  unfold writeEvents
  split <;> simp [Event.isCreate]

/-! ### JSON escaping of plain ASCII strings -/

theorem escapeChar_plain (c : Char) (h1 : 32 ≤ c.toNat) (h2 : c.toNat ≤ 126)
    (h3 : c ≠ Char.ofNat 34) (h4 : c ≠ Char.ofNat 92) :
    escapeChar c = String.singleton c := by
  unfold escapeChar
  rw [if_neg h3, if_neg h4, if_pos ⟨h1, h2⟩]

theorem escapeList_plain (l : List Char)
    (h : ∀ c ∈ l, 32 ≤ c.toNat ∧ c.toNat ≤ 126 ∧ c ≠ Char.ofNat 34 ∧ c ≠ Char.ofNat 92) :
    escapeList l = l := by
  induction l with
  | nil => rfl
  | cons c cs ih =>
    obtain ⟨h1, h2, h3, h4⟩ := h c (List.mem_cons_self c cs)
    rw [escapeList, escapeChar_plain c h1 h2 h3 h4,
      ih (fun x hx => h x (List.mem_cons_of_mem c hx))]
    rfl

theorem jsonEscape_plain (s : String) (h : PlainAscii s) : jsonEscape s = s := by
  unfold jsonEscape
  rw [escapeList_plain s.data h]

theorem redrivePolicyStr_plain (da : String) (n : Int) (h : PlainAscii da) :
    redrivePolicyStr da n
      = "\x7b\"deadLetterTargetArn\":\"" ++ da ++ "\",\"maxReceiveCount\":"
          ++ toString n ++ "\x7d" := by
  have e1 : jsonStr "deadLetterTargetArn" = "\"deadLetterTargetArn\"" := by decide
  have e2 : jsonStr "maxReceiveCount" = "\"maxReceiveCount\"" := by decide
  unfold redrivePolicyStr
  rw [e1, e2]
  unfold jsonStr
  rw [jsonEscape_plain da h]
  simp [String.append_assoc]
  rw [← String.append_assoc]
  rw [show ("\x7b\"deadLetterTargetArn\":" : String) ++ "\""
        = "\x7b\"deadLetterTargetArn\":\"" from by decide]

/-! ### Trailing newlines of the rendered document -/

theorem trailingNewlines_close (a : String) :
    trailingNewlines (a ++ "\n\x7d") = 0 := by
  unfold trailingNewlines
  rw [String.data_append]
  rw [show ("\n\x7d" : String).data = [Char.ofNat 10, Char.ofNat 125] from by decide]
  rw [List.reverse_append]
  rw [show [Char.ofNat 10, Char.ofNat 125].reverse
        = [Char.ofNat 125, Char.ofNat 10] from by decide]
  rw [List.cons_append, List.takeWhile_cons_of_neg (by decide)]
  rfl

theorem trailingNewlines_dumps (kvs : List (String × String)) :
    trailingNewlines (dumpsIndent2 kvs) = 0 := by
  cases kvs with
  | nil => decide
  | cons k rest =>
    exact trailingNewlines_close
      ("\x7b\n" ++ String.intercalate ",\n"
        ((k :: rest).map (fun kv => "  " ++ jsonStr kv.1 ++ ": " ++ jsonStr kv.2)))

theorem trailingNewlines_newline (s : String) (h : trailingNewlines s = 0) :
    trailingNewlines (s ++ "\n") = 1 := by
  unfold trailingNewlines at h ⊢
  rw [String.data_append]
  rw [show ("\n" : String).data = [Char.ofNat 10] from by decide]
  rw [List.reverse_append]
  rw [show [Char.ofNat 10].reverse = [Char.ofNat 10] from by decide]
  rw [List.cons_append, List.takeWhile_cons_of_pos (by decide)]
  rw [List.nil_append, List.length_cons, List.length_eq_zero.mp h]
  rfl

/-! ### Normal forms of the attribute set and the payload -/

theorem mainAttrs_none (args : Args) : mainAttrs args none = baseAttrs args := by
  simp [mainAttrs, truthy]

theorem mainAttrs_some (args : Args) (da : String) (hda : da ≠ "") :
    mainAttrs args (some da)
      = baseAttrs args
          ++ [("RedrivePolicy", redrivePolicyStr da args.maxReceiveCount)] := by
  simp [mainAttrs, truthy, hda]

theorem payloadOf_none (qu qa : String) :
    payloadOf qu qa none none
      = [("existing_queue_url", qu), ("existing_queue_arn", qa)] := by
  simp [payloadOf, truthy]

theorem payloadOf_some (qu qa du da : String) (hdu : du ≠ "") (hda : da ≠ "") :
    payloadOf qu qa (some du) (some da)
      = [("existing_queue_url", qu), ("existing_queue_arn", qa),
         ("existing_dlq_url", du), ("existing_dlq_arn", da)] := by
  simp [payloadOf, truthy, hdu, hda]

theorem run_creates (env : SqsEnv) (args : Args) (n : String)
    (a : List (String × String))
    (h : Event.createQueue n a ∈ (run env args).snd) :
    a = baseAttrs args ∨ ∃ d, a = mainAttrs args d := by
  rcases run_spec env args with
    ⟨hdlq, ⟨e, hq, heq⟩ | ⟨du, e, hq, ha, heq⟩ | ⟨du, da, hq, ha, heq⟩⟩ | ⟨hdlq, heq⟩
  · rw [heq] at h; simp at h; exact Or.inl h.2
  · rw [heq] at h; simp at h; exact Or.inl h.2
  · rw [heq] at h
    obtain ⟨rest, hsnd, hcr, _⟩ := finishMain_ext env args (some du) (some da) _
    rw [hsnd] at h
    rcases List.mem_append.mp h with hl | hr
    · simp at hl; exact Or.inl hl.2
    · rcases List.mem_cons.mp hr with hc | hc
      · right
        refine ⟨some da, ?_⟩
        injection hc
      · exact absurd hc (fun hx => hcr n a hx)
  · rw [heq] at h
    obtain ⟨rest, hsnd, hcr, _⟩ := finishMain_ext env args none none _
    rw [hsnd, List.nil_append] at h
    rcases List.mem_cons.mp h with hc | hc
    · right
      refine ⟨none, ?_⟩
      injection hc
    · exact absurd hc (fun hx => hcr n a hx)

/-! ### The claims -/

/-- C3: on any outcome a successful run exits with code 0; when any call
fails, the run errors (non-zero process exit), the trace contains no output
event (no document reaches the file or stdout), and a dead-letter queue whose
create call succeeded stays in the trace — nothing rolls it back. -/
theorem claim_c3_failure_semantics (env : SqsEnv) (args : Args) :
    (∀ n, (run env args).fst = .ok n → n = 0) ∧
    (∀ e, (run env args).fst = .error e →
      ∀ ev ∈ (run env args).snd, ev.isOutput = false) ∧
    (args.withDlq = true → ∀ du,
      env.createQueue (dlqNameOf args) (baseAttrs args) = .ok du →
      Event.createQueue (dlqNameOf args) (baseAttrs args) ∈ (run env args).snd) := by
  refine ⟨?_, ?_, ?_⟩
  · intro n h
    obtain ⟨_, _, _, _, _, _, _, heq⟩ := run_ok env args n h
    rw [heq] at h
    exact (Except.ok.inj h).symm
  · intro e he ev hev
    rcases run_spec env args with
      ⟨hdlq, ⟨e', hq, heq⟩ | ⟨du, e', hq, ha, heq⟩ | ⟨du, da, hq, ha, heq⟩⟩ | ⟨hdlq, heq⟩
    · rw [heq] at hev; simp at hev; rw [hev]; rfl
    · rw [heq] at hev
      rcases List.mem_cons.mp hev with h | h
      · rw [h]; rfl
      · simp at h; rw [h]; rfl
    · rw [heq] at he hev
      obtain ⟨rest, hsnd, _, _, herr, _⟩ := finishMain_ext env args (some du) (some da) _
      rw [hsnd] at hev
      rcases List.mem_append.mp hev with hl | hr
      · rcases List.mem_cons.mp hl with h | h
        · rw [h]; rfl
        · simp at h; rw [h]; rfl
      · rcases List.mem_cons.mp hr with h | h
        · rw [h]; rfl
        · exact herr e he ev h
    · rw [heq] at he hev
      obtain ⟨rest, hsnd, _, _, herr, _⟩ := finishMain_ext env args none none _
      rw [hsnd, List.nil_append] at hev
      rcases List.mem_cons.mp hev with h | h
      · rw [h]; rfl
      · exact herr e he ev h
  · intro hdlq du hok
    rcases run_spec env args with
      ⟨_, ⟨e, hq, heq⟩ | ⟨du', e, hq, ha, heq⟩ | ⟨du', da, hq, ha, heq⟩⟩ | ⟨hf, _⟩
    · rw [hok] at hq; cases hq
    · rw [heq]; simp
    · rw [heq]
      obtain ⟨rest, hsnd, _⟩ := finishMain_ext env args (some du') (some da) _
      rw [hsnd]
      simp
    · rw [hdlq] at hf; cases hf

/-- C5: every create-queue call of any run — the dead-letter one and the main
one — carries `VisibilityTimeout` and `MessageRetentionPeriod` equal to the
decimal renderings of the configured values, and the dead-letter create call
(the first event when `--with-dlq` is given) carries exactly those two
attributes and no others. -/
theorem claim_c5_shared_attributes (env : SqsEnv) (args : Args) :
    (∀ n a, Event.createQueue n a ∈ (run env args).snd →
      a.lookup "VisibilityTimeout" = some (toString args.visibilityTimeoutSeconds) ∧
      a.lookup "MessageRetentionPeriod" = some (toString args.messageRetentionSeconds)) ∧
    (args.withDlq = true →
      (run env args).snd.head?
        = some (Event.createQueue (dlqNameOf args)
            [("VisibilityTimeout", toString args.visibilityTimeoutSeconds),
             ("MessageRetentionPeriod", toString args.messageRetentionSeconds)])) := by
  constructor
  · intro n a h
    rcases run_creates env args n a h with hb | ⟨d, hm⟩
    · rw [hb]; exact baseAttrs_lookup args
    · rw [hm]; exact mainAttrs_lookup args d
  · intro hdlq
    rw [run_head env args hdlq]
    rfl

/-- C8: with `--with-dlq` and no `--dlq-name`, the dead-letter create call —
the first remote call of the run — uses the name `<name>-dlq`. -/
theorem claim_c8_default_dlq_name (env : SqsEnv) (args : Args)
    (hdlq : args.withDlq = true) (hdn : args.dlqName = none) :
    (run env args).snd.head?
      = some (Event.createQueue (args.name ++ "-dlq") (baseAttrs args)) := by
  rw [run_head env args hdlq]
  unfold dlqNameOf
  rw [hdn]

/-- C10: with `--with-dlq` and `--dlq-name` given as the empty string, the
`or`-fallback still fires and the dead-letter create call uses `<name>-dlq`. -/
theorem claim_c10_empty_dlq_name_falls_back (env : SqsEnv) (args : Args)
    (hdlq : args.withDlq = true) (hdn : args.dlqName = some "") :
    (run env args).snd.head?
      = some (Event.createQueue (args.name ++ "-dlq") (baseAttrs args)) := by
  rw [run_head env args hdlq]
  unfold dlqNameOf
  rw [hdn]
  rfl

/-- C9: in every run the number of file-open events equals the number of
file-close events (the handle is released on every exit path, including when
the write raises), and a run writing to stdout never opens a file. -/
theorem claim_c9_handle_released (env : SqsEnv) (args : Args) :
    (run env args).snd.countP (fun ev => ev.isOpen)
        = (run env args).snd.countP (fun ev => ev.isClose) ∧
    (args.out = "-" → (run env args).snd.countP (fun ev => ev.isOpen) = 0) := by
  rcases run_spec env args with
    ⟨hdlq, ⟨e, hq, heq⟩ | ⟨du, e, hq, ha, heq⟩ | ⟨du, da, hq, ha, heq⟩⟩ | ⟨hdlq, heq⟩
  · rw [heq]; exact ⟨rfl, fun _ => rfl⟩
  · rw [heq]; exact ⟨rfl, fun _ => rfl⟩
  · rw [heq]
    obtain ⟨rest, hsnd, _, hcount, _, hopen⟩ := finishMain_ext env args (some du) (some da) _
    rw [hsnd]
    constructor
    · simp only [List.countP_append, List.countP_cons]
      rw [hcount]
      rfl
    · intro hc
      have hz : List.countP (fun ev => ev.isOpen) rest = 0 :=
        List.countP_eq_zero.mpr (fun ev hev => by simp [hopen hc ev hev])
      simp only [List.countP_append, List.countP_cons, hz]
      rfl
  · rw [heq]
    obtain ⟨rest, hsnd, _, hcount, _, hopen⟩ := finishMain_ext env args none none _
    rw [hsnd, List.nil_append]
    constructor
    · simp only [List.countP_cons]
      rw [hcount]
      rfl
    · intro hc
      have hz : List.countP (fun ev => ev.isOpen) rest = 0 :=
        List.countP_eq_zero.mpr (fun ev hev => by simp [hopen hc ev hev])
      simp only [List.countP_cons, hz]
      rfl

/-- C6: with `--with-dlq` and all calls succeeding, the remote operations
happen in the strict order dead-letter create, dead-letter attribute fetch,
main create (with the redrive policy in its attribute set), main attribute
fetch, and only then the output write; without `--with-dlq` the first two
steps are skipped. -/
theorem claim_c6_operation_order (env : SqsEnv) (args : Args) :
    (∀ du da qu qa, args.withDlq = true →
      env.createQueue (dlqNameOf args) (baseAttrs args) = .ok du →
      queueArnOf env du = .ok da →
      env.createQueue args.name (mainAttrs args (some da)) = .ok qu →
      queueArnOf env qu = .ok qa →
      (args.out = "-" ∨ (env.openOk args.out = true ∧ env.writeOk args.out = true)) →
      run env args = (.ok 0,
        [Event.createQueue (dlqNameOf args) (baseAttrs args),
         Event.getQueueAttributes du ["QueueArn"],
         Event.createQueue args.name (mainAttrs args (some da)),
         Event.getQueueAttributes qu ["QueueArn"]] ++
        writeEvents args (dumpsIndent2 (payloadOf qu qa (some du) (some da))))) ∧
    (∀ qu qa, args.withDlq = false →
      env.createQueue args.name (mainAttrs args none) = .ok qu →
      queueArnOf env qu = .ok qa →
      (args.out = "-" ∨ (env.openOk args.out = true ∧ env.writeOk args.out = true)) →
      run env args = (.ok 0,
        [Event.createQueue args.name (mainAttrs args none),
         Event.getQueueAttributes qu ["QueueArn"]] ++
        writeEvents args (dumpsIndent2 (payloadOf qu qa none none)))) := by
  constructor
  · intro du da qu qa hdlq h1 h2 h3 h4 hw
    have hr : run env args
        = finishMain env args (some du) (some da)
            [Event.createQueue (dlqNameOf args) (baseAttrs args),
             Event.getQueueAttributes du ["QueueArn"]] := by
      simp [run, hdlq, h1, h2]
    rcases hw with hout | ⟨ho, hwr⟩
    · simp [hr, finishMain, h3, h4, writePhase, writeEvents, hout]
    · by_cases hout : args.out = "-"
      · simp [hr, finishMain, h3, h4, writePhase, writeEvents, hout]
      · simp [hr, finishMain, h3, h4, writePhase, writeEvents, hout, ho, hwr]
  · intro qu qa hdlq h3 h4 hw
    have hr : run env args = finishMain env args none none [] := by
      simp [run, hdlq]
    rcases hw with hout | ⟨ho, hwr⟩
    · simp [hr, finishMain, h3, h4, writePhase, writeEvents, hout]
    · by_cases hout : args.out = "-"
      · simp [hr, finishMain, h3, h4, writePhase, writeEvents, hout]
      · simp [hr, finishMain, h3, h4, writePhase, writeEvents, hout, ho, hwr]

/-- C4: a successful run without `--with-dlq` issues exactly one create-queue
call, and the output document is rendered from the payload holding exactly
the two keys `existing_queue_url` and `existing_queue_arn`. -/
theorem claim_c4_no_dlq_output (env : SqsEnv) (args : Args)
    (hdlq : args.withDlq = false) (h0 : (run env args).fst = .ok 0) :
    ∃ qu qa, env.createQueue args.name (baseAttrs args) = .ok qu ∧
      queueArnOf env qu = .ok qa ∧
      (run env args).snd
        = [Event.createQueue args.name (baseAttrs args),
           Event.getQueueAttributes qu ["QueueArn"]] ++
          writeEvents args (dumpsIndent2
            [("existing_queue_url", qu), ("existing_queue_arn", qa)]) ∧
      (run env args).snd.countP (fun ev => ev.isCreate) = 1 := by
  obtain ⟨dlqUrl, dlqArn, qu, qa, hcase, hq, ha, heq⟩ := run_ok env args 0 h0
  rcases hcase with ⟨hd, _⟩ | ⟨_, hdu, hda⟩
  · rw [hdlq] at hd; cases hd
  · subst hdu; subst hda
    rw [mainAttrs_none] at hq heq
    rw [payloadOf_none] at heq
    refine ⟨qu, qa, hq, ha, ?_, ?_⟩
    · rw [heq]; simp [hdlq]
    · rw [heq]
      have hz : (writeEvents args (dumpsIndent2
          [("existing_queue_url", qu), ("existing_queue_arn", qa)])).countP
            (fun ev => ev.isCreate) = 0 :=
        List.countP_eq_zero.mpr (fun ev hev => by simp [writeEvents_no_create args _ ev hev])
      simp only [hdlq, if_false, List.nil_append, List.countP_append, List.countP_cons, hz]
      rfl

/-- C7: on a successful run, writing to a file stores the indented document
followed by exactly one trailing newline, while writing to stdout prints the
indented document itself, which ends with no newline (the print adds its
own). -/
theorem claim_c7_trailing_newline (env : SqsEnv) (args : Args) :
    (args.out = "-" → (run env args).fst = .ok 0 →
      ∃ p, Event.printStdout (dumpsIndent2 p) ∈ (run env args).snd ∧
        trailingNewlines (dumpsIndent2 p) = 0) ∧
    (args.out ≠ "-" → (run env args).fst = .ok 0 →
      ∃ p, Event.writeFile args.out (dumpsIndent2 p ++ "\n") ∈ (run env args).snd ∧
        trailingNewlines (dumpsIndent2 p ++ "\n") = 1) := by
  constructor
  · intro hout h0
    obtain ⟨dlqUrl, dlqArn, qu, qa, _, _, _, heq⟩ := run_ok env args 0 h0
    refine ⟨payloadOf qu qa dlqUrl dlqArn, ?_, trailingNewlines_dumps _⟩
    rw [heq]
    simp [writeEvents, hout]
  · intro hout h0
    obtain ⟨dlqUrl, dlqArn, qu, qa, _, _, _, heq⟩ := run_ok env args 0 h0
    refine ⟨payloadOf qu qa dlqUrl dlqArn, ?_,
      trailingNewlines_newline _ (trailingNewlines_dumps _)⟩
    rw [heq]
    simp [writeEvents, hout]

/-- C2: with `--with-dlq`, once the dead-letter queue was created and its
ARN fetched (a nonempty plain-ASCII string, as every real ARN is), the main
create call — the third event of the run — carries a `RedrivePolicy`
attribute whose value is exactly the compact JSON
`\x7b"deadLetterTargetArn":"<dlq-arn>","maxReceiveCount":<n>\x7d`, with no
spaces after the separators. -/
theorem claim_c2_redrive_policy_exact (env : SqsEnv) (args : Args)
    (du da : String) (hdlq : args.withDlq = true)
    (h1 : env.createQueue (dlqNameOf args) (baseAttrs args) = .ok du)
    (h2 : queueArnOf env du = .ok da)
    (hda : da ≠ "") (hplain : PlainAscii da) :
    ∃ tail, (run env args).snd
      = Event.createQueue (dlqNameOf args) (baseAttrs args)
        :: Event.getQueueAttributes du ["QueueArn"]
        :: Event.createQueue args.name
            (baseAttrs args ++
              [("RedrivePolicy",
                "\x7b\"deadLetterTargetArn\":\"" ++ da ++ "\",\"maxReceiveCount\":"
                  ++ toString args.maxReceiveCount ++ "\x7d")])
        :: tail := by
  have hr : run env args
      = finishMain env args (some du) (some da)
          [Event.createQueue (dlqNameOf args) (baseAttrs args),
           Event.getQueueAttributes du ["QueueArn"]] := by
    simp [run, hdlq, h1, h2]
  obtain ⟨rest, hsnd, _⟩ := finishMain_ext env args (some du) (some da)
    [Event.createQueue (dlqNameOf args) (baseAttrs args),
     Event.getQueueAttributes du ["QueueArn"]]
  refine ⟨rest, ?_⟩
  rw [hr, hsnd, mainAttrs_some args da hda, redrivePolicyStr_plain da _ hplain]
  rfl

/-- C1: in every successful run against an environment returning nonempty
identifiers, the main create call carries a `RedrivePolicy` attribute iff a
dead-letter queue was requested — in which case the policy is built from the
fetched dead-letter ARN — and the payload whose rendering is written out
contains the `existing_dlq_url` and `existing_dlq_arn` keys iff a dead-letter
queue was requested. -/
theorem claim_c1_redrive_and_keys_iff_dlq (env : SqsEnv) (args : Args)
    (hne : ReturnsNonempty env) (h0 : (run env args).fst = .ok 0) :
    ∃ (dlqUrl dlqArn : Option String) (qu qa : String) (pre : List Event),
      Event.createQueue args.name (mainAttrs args dlqArn) ∈ (run env args).snd ∧
      (((mainAttrs args dlqArn).lookup "RedrivePolicy").isSome ↔ args.withDlq = true) ∧
      (args.withDlq = true → ∃ du da, dlqUrl = some du ∧ dlqArn = some da ∧
        env.createQueue (dlqNameOf args) (baseAttrs args) = .ok du ∧
        queueArnOf env du = .ok da ∧
        (mainAttrs args dlqArn).lookup "RedrivePolicy"
          = some (redrivePolicyStr da args.maxReceiveCount)) ∧
      (run env args).snd
        = pre ++ writeEvents args (dumpsIndent2 (payloadOf qu qa dlqUrl dlqArn)) ∧
      (("existing_dlq_url" ∈ (payloadOf qu qa dlqUrl dlqArn).map Prod.fst)
        ↔ args.withDlq = true) ∧
      (("existing_dlq_arn" ∈ (payloadOf qu qa dlqUrl dlqArn).map Prod.fst)
        ↔ args.withDlq = true) := by
  obtain ⟨dlqUrl, dlqArn, qu, qa, hcase, hq, ha, heq⟩ := run_ok env args 0 h0
  rcases hcase with ⟨hdlq, du, da, hdu, hda, hqd, had⟩ | ⟨hdlq, hdu, hda⟩
  · subst hdu; subst hda
    have hdu' : du ≠ "" := hne.1 _ _ _ hqd
    have hda' : da ≠ "" := hne.2 _ _ had
    refine ⟨some du, some da, qu, qa,
      [Event.createQueue (dlqNameOf args) (baseAttrs args),
       Event.getQueueAttributes du ["QueueArn"],
       Event.createQueue args.name (mainAttrs args (some da)),
       Event.getQueueAttributes qu ["QueueArn"]], ?_, ?_, ?_, ?_, ?_, ?_⟩
    · rw [heq]; simp [hdlq]
    · rw [mainAttrs_redrive_some args da hda']; simp [hdlq]
    · exact fun _ => ⟨du, da, rfl, rfl, hqd, had,
        mainAttrs_redrive_some args da hda'⟩
    · rw [heq]; simp [hdlq]
    · rw [payloadOf_some qu qa du da hdu' hda']; simp [hdlq]
    · rw [payloadOf_some qu qa du da hdu' hda']; simp [hdlq]
  · subst hdu; subst hda
    refine ⟨none, none, qu, qa,
      [Event.createQueue args.name (mainAttrs args none),
       Event.getQueueAttributes qu ["QueueArn"]], ?_, ?_, ?_, ?_, ?_, ?_⟩
    · rw [heq]; simp [hdlq]
    · rw [mainAttrs_redrive_none]; simp [hdlq]
    · intro hc; rw [hdlq] at hc; cases hc
    · rw [heq]; simp [hdlq]
    · rw [payloadOf_none]; simp [hdlq]
    · rw [payloadOf_none]; simp [hdlq]

/-! ### Concrete witnesses -/

theorem envAllOk_returnsNonempty : ReturnsNonempty envAllOk := by
  constructor
  · intro n a u h
    simp [envAllOk] at h
    rw [← h]
    decide
  · intro u a h
    have hq : queueArnOf envAllOk u = .ok "arn:aws:sqs:us-east-1:123456789012:q" := rfl
    rw [hq] at h
    rw [← Except.ok.inj h]
    decide

/-- Witness for C1 at a concrete cooperative environment. -/
theorem claim_c1_witness :
    ∃ (dlqUrl dlqArn : Option String) (qu qa : String) (pre : List Event),
      Event.createQueue argsOrdersDlq.name (mainAttrs argsOrdersDlq dlqArn)
          ∈ (run envAllOk argsOrdersDlq).snd ∧
      (((mainAttrs argsOrdersDlq dlqArn).lookup "RedrivePolicy").isSome
        ↔ argsOrdersDlq.withDlq = true) ∧
      (argsOrdersDlq.withDlq = true → ∃ du da, dlqUrl = some du ∧ dlqArn = some da ∧
        envAllOk.createQueue (dlqNameOf argsOrdersDlq) (baseAttrs argsOrdersDlq)
          = .ok du ∧
        queueArnOf envAllOk du = .ok da ∧
        (mainAttrs argsOrdersDlq dlqArn).lookup "RedrivePolicy"
          = some (redrivePolicyStr da argsOrdersDlq.maxReceiveCount)) ∧
      (run envAllOk argsOrdersDlq).snd
        = pre ++ writeEvents argsOrdersDlq
            (dumpsIndent2 (payloadOf qu qa dlqUrl dlqArn)) ∧
      (("existing_dlq_url" ∈ (payloadOf qu qa dlqUrl dlqArn).map Prod.fst)
        ↔ argsOrdersDlq.withDlq = true) ∧
      (("existing_dlq_arn" ∈ (payloadOf qu qa dlqUrl dlqArn).map Prod.fst)
        ↔ argsOrdersDlq.withDlq = true) :=
  claim_c1_redrive_and_keys_iff_dlq envAllOk argsOrdersDlq envAllOk_returnsNonempty rfl

/-- Witness for C2: the scenario `--name orders --with-dlq --max-receive-count 3`. -/
theorem claim_c2_witness :
    ∃ tail, (run envAllOk argsOrdersDlq).snd
      = Event.createQueue (dlqNameOf argsOrdersDlq) (baseAttrs argsOrdersDlq)
        :: Event.getQueueAttributes "https://queue.example/q" ["QueueArn"]
        :: Event.createQueue argsOrdersDlq.name
            (baseAttrs argsOrdersDlq ++
              [("RedrivePolicy",
                "\x7b\"deadLetterTargetArn\":\""
                  ++ "arn:aws:sqs:us-east-1:123456789012:q"
                  ++ "\",\"maxReceiveCount\":"
                  ++ toString argsOrdersDlq.maxReceiveCount ++ "\x7d")])
        :: tail :=
  claim_c2_redrive_policy_exact envAllOk argsOrdersDlq
    "https://queue.example/q" "arn:aws:sqs:us-east-1:123456789012:q"
    rfl rfl rfl (by decide) (by unfold PlainAscii; decide)

/-- Witness for C3: the main create call fails after the DLQ was created. -/
theorem claim_c3_witness :
    (∀ ev ∈ (run envMainFails argsOrdersDlq).snd, ev.isOutput = false) ∧
    Event.createQueue (dlqNameOf argsOrdersDlq) (baseAttrs argsOrdersDlq)
      ∈ (run envMainFails argsOrdersDlq).snd :=
  ⟨(claim_c3_failure_semantics envMainFails argsOrdersDlq).2.1 "QueueAlreadyExists" rfl,
   (claim_c3_failure_semantics envMainFails argsOrdersDlq).2.2 rfl
     "https://queue.example/dlq" rfl⟩

/-- Witness for C4: the scenario `--name orders` with all defaults. -/
theorem claim_c4_witness :
    ∃ qu qa, envAllOk.createQueue argsOrders.name (baseAttrs argsOrders) = .ok qu ∧
      queueArnOf envAllOk qu = .ok qa ∧
      (run envAllOk argsOrders).snd
        = [Event.createQueue argsOrders.name (baseAttrs argsOrders),
           Event.getQueueAttributes qu ["QueueArn"]] ++
          writeEvents argsOrders (dumpsIndent2
            [("existing_queue_url", qu), ("existing_queue_arn", qa)]) ∧
      (run envAllOk argsOrders).snd.countP (fun ev => ev.isCreate) = 1 :=
  claim_c4_no_dlq_output envAllOk argsOrders rfl rfl

/-- Witness for C5 at the dead-letter scenario. -/
theorem claim_c5_witness :
    ((baseAttrs argsOrdersDlq).lookup "VisibilityTimeout"
        = some (toString argsOrdersDlq.visibilityTimeoutSeconds) ∧
      (baseAttrs argsOrdersDlq).lookup "MessageRetentionPeriod"
        = some (toString argsOrdersDlq.messageRetentionSeconds)) ∧
    (run envAllOk argsOrdersDlq).snd.head?
      = some (Event.createQueue (dlqNameOf argsOrdersDlq)
          [("VisibilityTimeout", toString argsOrdersDlq.visibilityTimeoutSeconds),
           ("MessageRetentionPeriod", toString argsOrdersDlq.messageRetentionSeconds)]) :=
  ⟨(claim_c5_shared_attributes envAllOk argsOrdersDlq).1
      (dlqNameOf argsOrdersDlq) (baseAttrs argsOrdersDlq) (by decide),
   (claim_c5_shared_attributes envAllOk argsOrdersDlq).2 rfl⟩

/-- Witness for C6 with every remote call succeeding. -/
theorem claim_c6_witness :
    run envAllOk argsOrdersDlq = (.ok 0,
      [Event.createQueue (dlqNameOf argsOrdersDlq) (baseAttrs argsOrdersDlq),
       Event.getQueueAttributes "https://queue.example/q" ["QueueArn"],
       Event.createQueue argsOrdersDlq.name
         (mainAttrs argsOrdersDlq (some "arn:aws:sqs:us-east-1:123456789012:q")),
       Event.getQueueAttributes "https://queue.example/q" ["QueueArn"]] ++
      writeEvents argsOrdersDlq (dumpsIndent2
        (payloadOf "https://queue.example/q" "arn:aws:sqs:us-east-1:123456789012:q"
          (some "https://queue.example/q")
          (some "arn:aws:sqs:us-east-1:123456789012:q")))) :=
  (claim_c6_operation_order envAllOk argsOrdersDlq).1
    "https://queue.example/q" "arn:aws:sqs:us-east-1:123456789012:q"
    "https://queue.example/q" "arn:aws:sqs:us-east-1:123456789012:q"
    rfl rfl rfl rfl rfl (Or.inl rfl)

/-- Witness for C7 at both output destinations. -/
theorem claim_c7_witness :
    (∃ p, Event.printStdout (dumpsIndent2 p) ∈ (run envAllOk argsOrders).snd ∧
      trailingNewlines (dumpsIndent2 p) = 0) ∧
    (∃ p, Event.writeFile argsOrdersFile.out (dumpsIndent2 p ++ "\n")
        ∈ (run envAllOk argsOrdersFile).snd ∧
      trailingNewlines (dumpsIndent2 p ++ "\n") = 1) :=
  ⟨(claim_c7_trailing_newline envAllOk argsOrders).1 rfl rfl,
   (claim_c7_trailing_newline envAllOk argsOrdersFile).2 (by decide) rfl⟩

/-- Witness for C8. -/
theorem claim_c8_witness :
    (run envAllOk argsOrdersDlq).snd.head?
      = some (Event.createQueue (argsOrdersDlq.name ++ "-dlq")
          (baseAttrs argsOrdersDlq)) :=
  claim_c8_default_dlq_name envAllOk argsOrdersDlq rfl rfl

/-- Witness for C9 at the stdout destination. -/
theorem claim_c9_witness :
    (run envAllOk argsOrders).snd.countP (fun ev => ev.isOpen)
        = (run envAllOk argsOrders).snd.countP (fun ev => ev.isClose) ∧
    (run envAllOk argsOrders).snd.countP (fun ev => ev.isOpen) = 0 :=
  ⟨(claim_c9_handle_released envAllOk argsOrders).1,
   (claim_c9_handle_released envAllOk argsOrders).2 rfl⟩

/-- Witness for C10. -/
theorem claim_c10_witness :
    (run envAllOk argsEmptyDlqName).snd.head?
      = some (Event.createQueue (argsEmptyDlqName.name ++ "-dlq")
          (baseAttrs argsEmptyDlqName)) :=
  claim_c10_empty_dlq_name_falls_back envAllOk argsEmptyDlqName rfl rfl

end CreateSqsQueue
